import Mathlib

/-!
Shallow embedding of the DG-LAB core: the V3 wire-protocol codec
(`crates/dglab-protocol/src/v3.rs`), the coalesced output state and its
100ms loop (`crates/dglab-core/src/device/coyote.rs`), the base device
state machine (`crates/dglab-core/src/device/mod.rs`), the relay
wait-for-bind operation (`crates/dglab-protocol/src/wifi/client.rs`) and
the bridge control-message classifier
(`crates/dglab-core/src/device/bridge.rs`).

Machine integers (`u8`, `u16`) are modelled as `Nat`; wrapping and
truncation are made explicit with `% 256` / bit masks exactly where the
Rust source wraps or masks.
-/

namespace DGLab

/-! ## V3 codec constants (v3.rs) -/

def B0_HEAD : Nat := 0xB0
def BF_HEAD : Nat := 0xBF
def B1_HEAD : Nat := 0xB1
def B0_LENGTH : Nat := 20
def BF_LENGTH : Nat := 7
def B1_LENGTH : Nat := 4
def MAX_STRENGTH : Nat := 200

/-! ## ChannelStrengthMode and StrengthMode (v3.rs) -/

/-- `ChannelStrengthMode`: 2-bit per-channel strength interpretation. -/
inductive ChannelStrengthMode where
  | NoChange
  | Increase
  | Decrease
  | Absolute
deriving DecidableEq, Repr

namespace ChannelStrengthMode

/-- The `#[repr(u8)]` discriminant of each variant. -/
def toBits : ChannelStrengthMode → Nat
  | .NoChange => 0b00
  | .Increase => 0b01
  | .Decrease => 0b10
  | .Absolute => 0b11

/-- `impl From<u8> for ChannelStrengthMode`: match on `value & 0b11`. -/
def ofBits (value : Nat) : ChannelStrengthMode :=
  match value &&& 0b11 with
  | 0b00 => .NoChange
  | 0b01 => .Increase
  | 0b10 => .Decrease
  | _ => .Absolute

end ChannelStrengthMode

/-- `StrengthMode`: A-channel bits in the high 2 bits, B in the low 2. -/
structure StrengthMode where
  channel_a : ChannelStrengthMode
  channel_b : ChannelStrengthMode
deriving DecidableEq, Repr

namespace StrengthMode

def new (a b : ChannelStrengthMode) : StrengthMode := ⟨a, b⟩

def both_no_change : StrengthMode := ⟨.NoChange, .NoChange⟩

/-- `encode`: `((channel_a as u8) << 2) | (channel_b as u8)`. -/
def encode (m : StrengthMode) : Nat :=
  (m.channel_a.toBits <<< 2) ||| m.channel_b.toBits

/-- `decode`: A from bits 3..2, B from bits 1..0. -/
def decode (value : Nat) : StrengthMode :=
  ⟨ChannelStrengthMode.ofBits ((value >>> 2) &&& 0b11),
   ChannelStrengthMode.ofBits (value &&& 0b11)⟩

end StrengthMode

/-! ## WaveformData (v3.rs) -/

/-- `WaveformData`: 4 frequency bytes and 4 intensity bytes. -/
structure WaveformData where
  f0 : Nat
  f1 : Nat
  f2 : Nat
  f3 : Nat
  i0 : Nat
  i1 : Nat
  i2 : Nat
  i3 : Nat
deriving DecidableEq, Repr

namespace WaveformData

/-- `silent()`: frequency all 0, intensity `[0,0,0,101]`. -/
def silent : WaveformData := ⟨0, 0, 0, 0, 0, 0, 0, 101⟩

/-- `uniform(frequency, intensity)`. -/
def uniform (frequency intensity : Nat) : WaveformData :=
  ⟨frequency, frequency, frequency, frequency,
   intensity, intensity, intensity, intensity⟩

/-- `encode`: 4 frequency bytes then 4 intensity bytes. -/
def encode (w : WaveformData) : List Nat :=
  [w.f0, w.f1, w.f2, w.f3, w.i0, w.i1, w.i2, w.i3]

/-- `decode(data)`: `None` when fewer than 8 bytes, else copy raw bytes. -/
def decode (data : List Nat) : Option WaveformData :=
  if data.length < 8 then none
  else some ⟨data.getD 0 0, data.getD 1 0, data.getD 2 0, data.getD 3 0,
             data.getD 4 0, data.getD 5 0, data.getD 6 0, data.getD 7 0⟩

end WaveformData

/-! ## B0Command (v3.rs) -/

/-- `B0Command`: sequence nibble, strength mode, two strengths, two
waveforms.  Fields are `u8` in the source, so bound hypotheses `< 256`
carry the machine-integer invariant. -/
structure B0Command where
  sequence : Nat
  strength_mode : StrengthMode
  strength_a : Nat
  strength_b : Nat
  waveform_a : WaveformData
  waveform_b : WaveformData
deriving DecidableEq, Repr

namespace B0Command

/-- `encode`: 20 bytes.  Byte 1 packs `(sequence & 0x0F) << 4` with
`strength_mode.encode() & 0x0F`; bytes 2–3 are the strengths but an
out-of-range strength (`> MAX_STRENGTH`) is replaced by `0`. -/
def encode (c : B0Command) : List Nat :=
  [B0_HEAD,
   ((c.sequence &&& 0x0F) <<< 4) ||| (c.strength_mode.encode &&& 0x0F),
   if c.strength_a ≤ MAX_STRENGTH then c.strength_a else 0,
   if c.strength_b ≤ MAX_STRENGTH then c.strength_b else 0]
  ++ c.waveform_a.encode ++ c.waveform_b.encode

/-- `decode(data)`: `None` when `data.len() < B0_LENGTH` or the header
byte is wrong; otherwise unpack byte 1 and the two waveform slices
`data[4..12]` and `data[12..20]`. -/
def decode (data : List Nat) : Option B0Command :=
  if data.length < B0_LENGTH then none
  else if data.getD 0 0 ≠ B0_HEAD then none
  else
    let b1 := data.getD 1 0
    match WaveformData.decode ((data.drop 4).take 8),
          WaveformData.decode ((data.drop 12).take 8) with
    | some wa, some wb =>
        some ⟨(b1 >>> 4) &&& 0x0F, StrengthMode.decode (b1 &&& 0x0F),
              data.getD 2 0, data.getD 3 0, wa, wb⟩
    | _, _ => none

end B0Command

/-! ## BFCommand (v3.rs) -/

/-- `BFCommand`: two soft limits and four balance parameters, raw bytes. -/
structure BFCommand where
  soft_limit_a : Nat
  soft_limit_b : Nat
  freq_balance_a : Nat
  freq_balance_b : Nat
  intensity_balance_a : Nat
  intensity_balance_b : Nat
deriving DecidableEq, Repr

namespace BFCommand

def default_config : BFCommand := ⟨MAX_STRENGTH, MAX_STRENGTH, 0, 0, 0, 0⟩

/-- `encode`: header then the six raw bytes. -/
def encode (c : BFCommand) : List Nat :=
  [BF_HEAD, c.soft_limit_a, c.soft_limit_b, c.freq_balance_a,
   c.freq_balance_b, c.intensity_balance_a, c.intensity_balance_b]

/-- `decode(data)`: `None` when `data.len() < BF_LENGTH` or wrong header. -/
def decode (data : List Nat) : Option BFCommand :=
  if data.length < BF_LENGTH then none
  else if data.getD 0 0 ≠ BF_HEAD then none
  else some ⟨data.getD 1 0, data.getD 2 0, data.getD 3 0,
             data.getD 4 0, data.getD 5 0, data.getD 6 0⟩

end BFCommand

/-! ## B1Response (v3.rs) -/

/-- `B1Response`: sequence echo plus the two actual strengths. -/
structure B1Response where
  sequence : Nat
  strength_a : Nat
  strength_b : Nat
deriving DecidableEq, Repr

namespace B1Response

/-- `decode(data)`: `None` when `data.len() < B1_LENGTH` or wrong header. -/
def decode (data : List Nat) : Option B1Response :=
  if data.length < B1_LENGTH then none
  else if data.getD 0 0 ≠ B1_HEAD then none
  else some ⟨data.getD 1 0, data.getD 2 0, data.getD 3 0⟩

/-- `encode`: 4 bytes. -/
def encode (r : B1Response) : List Nat :=
  [B1_HEAD, r.sequence, r.strength_a, r.strength_b]

end B1Response

/-! ## Frequency compression (v3.rs) -/

/-- `compress_frequency(input: u16) -> u8`: piecewise rescale of
10..=1000 into 10..=240, everything else to 10.  The `as u8` casts are
made explicit with `% 256`. -/
def compress_frequency (input : Nat) : Nat :=
  if 10 ≤ input ∧ input ≤ 100 then input % 256
  else if 101 ≤ input ∧ input ≤ 600 then ((input - 100) / 5 + 100) % 256
  else if 601 ≤ input ∧ input ≤ 1000 then ((input - 600) / 10 + 200) % 256
  else 10

/-- `decompress_frequency(value: u8) -> u16`: approximate inverse. -/
def decompress_frequency (value : Nat) : Nat :=
  if 10 ≤ value ∧ value ≤ 100 then value
  else if 101 ≤ value ∧ value ≤ 200 then (value - 100) * 5 + 100
  else if 201 ≤ value ∧ value ≤ 240 then (value - 200) * 10 + 600
  else 10

/-! ## V3OutputState (coyote.rs)

The shared output cell: two atomic strength targets, two atomic pending
flags, the `AtomicU8` sequence counter (wraps mod 256) and the two
mutex-guarded waveforms.  The 100ms tick is `buildB0`. -/

structure V3OutputState where
  target_strength_a : Nat
  target_strength_b : Nat
  pending_strength_a : Bool
  pending_strength_b : Bool
  sequence : Nat
  waveform_a : WaveformData
  waveform_b : WaveformData
deriving DecidableEq, Repr

namespace V3OutputState

def new : V3OutputState :=
  ⟨0, 0, false, false, 0, WaveformData.silent, WaveformData.silent⟩

/-- `next_sequence`: `fetch_add(1)` on the wrapping `AtomicU8` counter
returns the old value `seq`; the emitted number is `(seq % 15) + 1`. -/
def next_sequence (st : V3OutputState) : Nat × V3OutputState :=
  ((st.sequence % 15) + 1, { st with sequence := (st.sequence + 1) % 256 })

/-- `build_b0`: swap both pending flags to false, choose `Absolute` for a
channel whose flag was set (else `NoChange`), allocate a sequence number
only when at least one flag was set (else 0), and read targets and
waveforms. -/
def build_b0 (st : V3OutputState) : B0Command × V3OutputState :=
  let need_a := st.pending_strength_a
  let need_b := st.pending_strength_b
  let st1 := { st with pending_strength_a := false, pending_strength_b := false }
  let mode_a : ChannelStrengthMode := if need_a then .Absolute else .NoChange
  let mode_b : ChannelStrengthMode := if need_b then .Absolute else .NoChange
  let seqSt := if need_a || need_b then st1.next_sequence else (0, st1)
  (⟨seqSt.1, StrengthMode.new mode_a mode_b,
    st.target_strength_a, st.target_strength_b,
    st.waveform_a, st.waveform_b⟩,
   seqSt.2)

/-- One tick of the output loop under continuous load: a strength write
re-sets the A-channel pending flag before the tick consumes it. -/
def tickLoaded (st : V3OutputState) : B0Command × V3OutputState :=
  build_b0 { st with pending_strength_a := true }

/-- State after `n` continuously-loaded ticks from `st`. -/
def runLoaded (st : V3OutputState) : Nat → V3OutputState
  | 0 => st
  | n + 1 => (tickLoaded (runLoaded st n)).2

/-- Sequence value emitted on tick `n` (0-indexed) of a continuously
loaded run from `st`. -/
def emitSeqAt (st : V3OutputState) (n : Nat) : Nat :=
  (tickLoaded (runLoaded st n)).1.sequence

end V3OutputState

/-! ## Device state machine (device/mod.rs) -/

/-- `DeviceState`. -/
inductive DeviceState where
  | Disconnected
  | Connecting
  | Connected
  | Running
  | Error
deriving DecidableEq, Repr

/-- `DeviceEvent` (the variants the modelled operations emit). -/
inductive DeviceEvent where
  | StateChanged (s : DeviceState)
  | PowerChanged (a b : Nat)
  | ErrorEvent (msg : String)
deriving DecidableEq, Repr

/-- `CoreError` variants used by the modelled operations. -/
inductive CoreError where
  | DeviceNotConnected
  | PowerOutOfRange (value max : Nat)
  | InvalidParameter (msg : String)
deriving DecidableEq, Repr

/-- `BaseDevice` data: state, per-channel powers and maxima
(`max_power_a = max_power_b = 100` at construction). -/
structure BaseDevice where
  state : DeviceState
  power_a : Nat
  power_b : Nat
  max_power_a : Nat
  max_power_b : Nat
deriving DecidableEq, Repr

namespace BaseDevice

def new : BaseDevice := ⟨.Disconnected, 0, 0, 100, 100⟩

/-- `set_state`: only a genuine transition mutates the state and sends a
single `StateChanged` event; re-entering the current state is a no-op
that emits nothing. -/
def set_state (d : BaseDevice) (s : DeviceState) :
    BaseDevice × List DeviceEvent :=
  if d.state ≠ s then ({ d with state := s }, [.StateChanged s])
  else (d, [])

/-- `set_power`: reject an invalid channel, then reject `power` above the
channel's `max_power`; on success overwrite the channel power and emit
one `PowerChanged` event. -/
def set_power (d : BaseDevice) (channel power : Nat) :
    Except CoreError (BaseDevice × List DeviceEvent) :=
  match channel with
  | 0 =>
      if power > d.max_power_a then
        .error (.PowerOutOfRange power d.max_power_a)
      else
        let d' := { d with power_a := power }
        .ok (d', [.PowerChanged d'.power_a d'.power_b])
  | 1 =>
      if power > d.max_power_b then
        .error (.PowerOutOfRange power d.max_power_b)
      else
        let d' := { d with power_b := power }
        .ok (d', [.PowerChanged d'.power_a d'.power_b])
  | _ => .error (.InvalidParameter "Invalid channel")

end BaseDevice

/-! ## CoyoteDevice (coyote.rs)

The modelled data is the `BaseDevice` plus the shared `V3OutputState`;
transport handles and task handles carry no data the claims touch. -/

structure CoyoteDevice where
  base : BaseDevice
  output_state : V3OutputState
deriving DecidableEq, Repr

namespace CoyoteDevice

def new : CoyoteDevice := ⟨BaseDevice.new, V3OutputState.new⟩

/-- `saturating_add` on `u8`. -/
def satAdd8 (a b : Nat) : Nat := min (a + b) 255

/-- `start()`: state error when not `Connected`; otherwise start the
output loop and transition to `Running`. -/
def start (d : CoyoteDevice) :
    Except CoreError (CoyoteDevice × List DeviceEvent) :=
  if d.base.state ≠ .Connected then .error .DeviceNotConnected
  else
    let bs := d.base.set_state .Running
    .ok ({ d with base := bs.1 }, bs.2)

/-- `stop()`: a no-op `Ok` when not `Running`; otherwise stop the loop,
reset both targets to 0 and both waveforms to silent, and transition to
`Connected`. -/
def stop (d : CoyoteDevice) : CoyoteDevice × List DeviceEvent :=
  if d.base.state ≠ .Running then (d, [])
  else
    let os := { d.output_state with
                  target_strength_a := 0, target_strength_b := 0,
                  waveform_a := WaveformData.silent,
                  waveform_b := WaveformData.silent }
    let bs := d.base.set_state .Connected
    ({ base := bs.1, output_state := os }, bs.2)

/-- `set_power(channel, power)` on `&mut self`: the result is the error
(if any), the device after the call, and the emitted events.  The source
rejects `power > MAX_STRENGTH` first, then dispatches on the channel —
0 and 1 store the target and set the pending flag, anything else is an
invalid-parameter error; every error path returns before mutating.  On
success the result of the follow-up `BaseDevice::set_power` call (with
value `power.min(base.power_a().max(power))`) is discarded but its
base-state mutation is kept. -/
def set_power (d : CoyoteDevice) (channel power : Nat) :
    Option CoreError × CoyoteDevice × List DeviceEvent :=
  if power > MAX_STRENGTH then
    (some (.PowerOutOfRange power MAX_STRENGTH), d, [])
  else
    match channel with
    | 0 =>
        let os := { d.output_state with
                      target_strength_a := power, pending_strength_a := true }
        let arg := min power (max d.base.power_a power)
        match d.base.set_power 0 arg with
        | .ok (b, evs) => (none, ⟨b, os⟩, evs)
        | .error _ => (none, ⟨d.base, os⟩, [])
    | 1 =>
        let os := { d.output_state with
                      target_strength_b := power, pending_strength_b := true }
        let arg := min power (max d.base.power_a power)
        match d.base.set_power 1 arg with
        | .ok (b, evs) => (none, ⟨b, os⟩, evs)
        | .error _ => (none, ⟨d.base, os⟩, [])
    | _ => (some (.InvalidParameter "Invalid channel"), d, [])

/-- `get_power(channel)`: the stored target for channel 0 or 1, `0` for
any other channel. -/
def get_power (d : CoyoteDevice) (channel : Nat) : Nat :=
  match channel with
  | 0 => d.output_state.target_strength_a
  | 1 => d.output_state.target_strength_b
  | _ => 0

/-- Apply a burst of `set_power` calls on one channel, each taking
effect as the source does (an erroring call mutates nothing). -/
def applyPowerCalls (d : CoyoteDevice) (channel : Nat) (vs : List Nat) :
    CoyoteDevice :=
  vs.foldl (fun d v => (d.set_power channel v).2.1) d

end CoyoteDevice

/-! ## Relay protocol events and wait_for_bind (wifi/mod.rs, wifi/client.rs) -/

/-- `ErrorCode`: relay-issued error codes. -/
inductive ErrorCode where
  | Success
  | PeerDisconnected
  | InvalidQrClientId
  | NoAppId
  | IdAlreadyBound
  | TargetNotFound
  | NotBound
  | InvalidJson
  | RecipientOffline
  | MessageTooLong
  | ServerError
  | Unknown (code : Nat)
deriving DecidableEq, Repr

/-- `WsEvent`: events surfaced by the relay receive loop. -/
inductive WsEvent where
  | Heartbeat
  | ClientId (id : String)
  | Bound (target : String)
  | Strength (raw : String)
  | Feedback (raw : String)
  | PeerDisconnected
  | ErrorMsg (code : ErrorCode)
  | BindTimeout
  | Closed
  | Other (raw : String)
deriving DecidableEq, Repr

/-- `WsError` variants reachable from the modelled wait loop. -/
inductive WsErr where
  | Receive (msg : String)
  | NotConnected
  | Timeout
  | Other (msg : String)
deriving DecidableEq, Repr

/-- `WsClient::wait_for_bind` event loop, over the stream of
`recv_event()` results it consumes: `Ok(Some(e))` dispatches on the
event, `Ok(None)` (channel closed) yields `Ok(false)`, `Err` propagates,
and an exhausted stream stands for the caller timeout elapsing, which
also yields `Ok(false)`. -/
def wait_for_bind : List (Except WsErr (Option WsEvent)) → Except WsErr Bool
  | [] => .ok false
  | (.error e) :: _ => .error e
  | (.ok none) :: _ => .ok false
  | (.ok (some ev)) :: rest =>
      match ev with
      | .Bound _ => .ok true
      | .ErrorMsg _ => .ok false
      | .BindTimeout => .ok false
      | .Closed => .ok false
      | _ => wait_for_bind rest

/-! ## Bridge control-message classification (bridge.rs) -/

/-- Rust `str::starts_with`: character-level test on the char sequence
of the (ASCII) payload. -/
def beginsWith : List Char → List Char → Bool
  | [], _ => true
  | _ :: _, [] => false
  | p :: ps, c :: cs => p == c && beginsWith ps cs

/-- Rust `str::split(sep)`: splits on every occurrence of the separator,
keeping empty pieces (the empty input yields one empty piece). -/
def splitOnChar (sep : Char) (cs : List Char) : List (List Char) :=
  match cs with
  | [] => [[]]
  | c :: rest =>
      let r := splitOnChar sep rest
      if c == sep then [] :: r
      else
        match r with
        | [] => [[c]]
        | h :: t => (c :: h) :: t

/-- Rust `str::trim_start_matches`: repeatedly strip the pattern from the
front.  Fuel-bounded; `s.length` strips always suffice for a non-empty
pattern. -/
def trimStartAux (pat : List Char) : Nat → List Char → List Char
  | 0, s => s
  | fuel + 1, s =>
      if pat.length ≠ 0 ∧ beginsWith pat s then
        trimStartAux pat fuel (s.drop pat.length)
      else s

def trimStartMatches (pat s : List Char) : List Char :=
  trimStartAux pat s.length s

/-- Rust `str::parse::<u8>`: optional leading `+`, then one or more
decimal digits, value at most 255. -/
def parseU8 (s : List Char) : Option Nat :=
  let t := if beginsWith "+".data s then s.drop 1 else s
  if t.isEmpty then none
  else if t.all Char.isDigit then
    let v := t.foldl (fun a c => a * 10 + (c.toNat - 48)) 0
    if v ≤ 255 then some v else none
  else none

/-- Outcome of classifying one inbound relay control payload. -/
inductive ControlAction where
  | strengthOp (channel mode value : Nat)
  | pulseOp (raw : String)
  | clearOp (channel : Nat)
  | unclassified
deriving DecidableEq, Repr

/-- `parse_and_apply_strength`, parsing part: strip `strength-`, split on
`+` into exactly three parts, map channel `1`/`2` to 0/1, parse mode and
value as `u8`.  Any failure means the payload is logged and ignored. -/
def parseStrengthMsg (message : List Char) : Option (Nat × Nat × Nat) :=
  let parts := splitOnChar '+' (trimStartMatches "strength-".data message)
  if parts.length ≠ 3 then none
  else
    let channel : Option Nat :=
      if parts.getD 0 [] = "1".data then some 0
      else if parts.getD 0 [] = "2".data then some 1
      else none
    match channel, parseU8 (parts.getD 1 []), parseU8 (parts.getD 2 []) with
    | some ch, some mode, some value => some (ch, mode, value)
    | _, _, _ => none

/-- `parse_and_apply_clear`, parsing part: strip `clear-` and map the
remaining channel name. -/
def parseClearMsg (message : List Char) : Option Nat :=
  let rest := trimStartMatches "clear-".data message
  if rest = "1".data ∨ rest = "A".data then some 0
  else if rest = "2".data ∨ rest = "B".data then some 1
  else none

/-- `handle_control_message`, dispatch part: route by payload shape
(`strength-`, `pulse-`, `clear-` at the front), leaving everything
malformed or unrecognized unclassified. -/
def classifyControl (message : List Char) : ControlAction :=
  if beginsWith "strength-".data message then
    match parseStrengthMsg message with
    | some (ch, mode, v) => .strengthOp ch mode v
    | none => .unclassified
  else if beginsWith "pulse-".data message then .pulseOp ⟨message⟩
  else if beginsWith "clear-".data message then
    match parseClearMsg message with
    | some ch => .clearOp ch
    | none => .unclassified
  else .unclassified

/-- Application part of `handle_control_message`: a strength op computes
the new power from the current one (`saturating_sub` for mode 0,
`saturating_add` capped at 200 for mode 1, `min 200` for mode 2; any
other mode is ignored) and applies it with `set_power` (a `set_power`
error is logged, not propagated); a clear sets the channel to 0; pulse
parsing is not implemented in the source and changes nothing;
unclassified payloads change nothing. -/
def applyControl (a : ControlAction) (d : CoyoteDevice) : CoyoteDevice :=
  match a with
  | .strengthOp ch mode value =>
      let current := d.get_power ch
      let newPower : Option Nat :=
        match mode with
        | 0 => some (current - value)
        | 1 => some (min (CoyoteDevice.satAdd8 current value) 200)
        | 2 => some (min value 200)
        | _ => none
      match newPower with
      | some np => (d.set_power ch np).2.1
      | none => d
  | .clearOp ch => (d.set_power ch 0).2.1
  | .pulseOp _ => d
  | .unclassified => d

/-- `handle_control_message`: classify, then apply. -/
def handle_control_message (message : List Char) (d : CoyoteDevice) :
    CoyoteDevice :=
  applyControl (classifyControl message) d

/-! ## Helper lemmas: nibble packing -/

lemma nibble_hi : ∀ a < 16, ∀ b < 16, (((a <<< 4) ||| b) >>> 4) &&& 15 = a := by
  decide

lemma nibble_lo : ∀ a < 16, ∀ b < 16, ((a <<< 4) ||| b) &&& 15 = b := by
  decide

lemma nibble_shr : ∀ a < 16, ∀ b < 16, ((a <<< 4) ||| b) >>> 4 = a := by
  decide

lemma and15_of_le (a : Nat) (h : a ≤ 15) : a &&& 15 = a := by
  rw [Nat.and_pow_two_sub_one_eq_mod a 4]
  omega

lemma and15_eq_mod (a : Nat) : a &&& 15 = a % 16 :=
  Nat.and_pow_two_sub_one_eq_mod a 4

lemma StrengthMode.encode_le (m : StrengthMode) : m.encode ≤ 15 := by
  obtain ⟨a, b⟩ := m
  cases a <;> cases b <;> decide

lemma StrengthMode.decode_encode (m : StrengthMode) :
    StrengthMode.decode m.encode = m := by
  obtain ⟨a, b⟩ := m
  cases a <;> cases b <;> decide

/-! ## Codec claim theorems -/

/-- C1: for every in-range `B0Command` (sequence at most 15, strengths at
most 200, waveform bytes arbitrary), every `BFCommand` and every
`B1Response`, decoding the encoded bytes yields the original value. -/
theorem C1_codec_roundtrip :
    (∀ c : B0Command, c.sequence ≤ 15 → c.strength_a ≤ MAX_STRENGTH →
        c.strength_b ≤ MAX_STRENGTH → B0Command.decode c.encode = some c) ∧
    (∀ c : BFCommand, BFCommand.decode c.encode = some c) ∧
    (∀ r : B1Response, B1Response.decode r.encode = some r) := by
  refine ⟨?_, ?_, ?_⟩
  · intro c hs ha hb
    obtain ⟨s, m, sa, sb, ⟨a0, a1, a2, a3, a4, a5, a6, a7⟩,
            ⟨c0, c1, c2, c3, c4, c5, c6, c7⟩⟩ := c
    simp only [B0Command.encode, B0Command.decode, WaveformData.encode,
      WaveformData.decode, List.cons_append, List.nil_append] at *
    simp only [List.length_cons, List.length_nil, B0_LENGTH, B0_HEAD,
      List.getD, List.get?, List.drop, List.take, MAX_STRENGTH] at *
    norm_num
    rw [and15_of_le s hs, and15_of_le m.encode (StrengthMode.encode_le m)]
    have hm := StrengthMode.encode_le m
    refine ⟨nibble_hi s (by omega) m.encode (by omega), ?_, by omega, by omega⟩
    rw [nibble_lo s (by omega) m.encode (by omega), StrengthMode.decode_encode]
  · intro c
    obtain ⟨l1, l2, f1, f2, i1, i2⟩ := c
    simp [BFCommand.encode, BFCommand.decode, List.getD, BF_LENGTH, BF_HEAD]
  · intro r
    obtain ⟨s, sa, sb⟩ := r
    simp [B1Response.encode, B1Response.decode, List.getD, B1_LENGTH, B1_HEAD]

/-- C1 witness: the round-trip at one concrete command of each shape. -/
theorem C1_codec_roundtrip_witness :
    B0Command.decode (B0Command.encode
      ⟨5, ⟨.Absolute, .Increase⟩, 150, 7, WaveformData.silent,
       WaveformData.uniform 20 30⟩) =
      some ⟨5, ⟨.Absolute, .Increase⟩, 150, 7, WaveformData.silent,
            WaveformData.uniform 20 30⟩ :=
  C1_codec_roundtrip.1 _ (by decide) (by decide) (by decide)

/-- C4 counterexample: a 21-byte buffer headed by `0xB0` — its length
differs from the fixed 20 — still decodes successfully, because the
source only rejects buffers *shorter* than the fixed length. -/
theorem C4_counterexample :
    (List.replicate 21 (0xB0 : Nat)).length ≠ B0_LENGTH ∧
    B0Command.decode (List.replicate 21 (0xB0 : Nat)) ≠ none := by decide

/-- C4 as amended: each decode returns `none` exactly when the buffer is
shorter than the shape's fixed length or its first byte is not the
shape's header; on any buffer of at least the fixed length with the
right header it returns `some` (trailing bytes are ignored).  The decode
functions are total, so no input can make them panic. -/
theorem C4_decode_rejection :
    (∀ data : List Nat,
        data.length < B0_LENGTH ∨ data.getD 0 0 ≠ B0_HEAD →
        B0Command.decode data = none) ∧
    (∀ data : List Nat,
        B0_LENGTH ≤ data.length → data.getD 0 0 = B0_HEAD →
        (B0Command.decode data).isSome = true) ∧
    (∀ data : List Nat,
        data.length < BF_LENGTH ∨ data.getD 0 0 ≠ BF_HEAD →
        BFCommand.decode data = none) ∧
    (∀ data : List Nat,
        BF_LENGTH ≤ data.length → data.getD 0 0 = BF_HEAD →
        (BFCommand.decode data).isSome = true) ∧
    (∀ data : List Nat,
        data.length < B1_LENGTH ∨ data.getD 0 0 ≠ B1_HEAD →
        B1Response.decode data = none) ∧
    (∀ data : List Nat,
        B1_LENGTH ≤ data.length → data.getD 0 0 = B1_HEAD →
        (B1Response.decode data).isSome = true) := by
  refine ⟨?_, ?_, ?_, ?_, ?_, ?_⟩
  · intro data h
    unfold B0Command.decode
    rcases h with h | h
    · rw [if_pos h]
    · by_cases hl : data.length < B0_LENGTH
      · rw [if_pos hl]
      · rw [if_neg hl, if_pos h]
  · intro data hl hh
    unfold B0Command.decode
    rw [if_neg (by omega), if_neg (by simp only [ne_eq, not_not]; simpa using hh)]
    have h1 : WaveformData.decode ((data.drop 4).take 8) ≠ none := by
      unfold WaveformData.decode
      rw [if_neg (by simp [B0_LENGTH] at hl ⊢; omega)]
      simp
    have h2 : WaveformData.decode ((data.drop 12).take 8) ≠ none := by
      unfold WaveformData.decode
      rw [if_neg (by simp [B0_LENGTH] at hl ⊢; omega)]
      simp
    rcases hw1 : WaveformData.decode ((data.drop 4).take 8) with _ | w1
    · exact absurd hw1 h1
    · rcases hw2 : WaveformData.decode ((data.drop 12).take 8) with _ | w2
      · exact absurd hw2 h2
      · simp
  · intro data h
    unfold BFCommand.decode
    rcases h with h | h
    · rw [if_pos h]
    · by_cases hl : data.length < BF_LENGTH
      · rw [if_pos hl]
      · rw [if_neg hl, if_pos h]
  · intro data hl hh
    unfold BFCommand.decode
    rw [if_neg (by omega), if_neg (by simp only [ne_eq, not_not]; simpa using hh)]
    simp
  · intro data h
    unfold B1Response.decode
    rcases h with h | h
    · rw [if_pos h]
    · by_cases hl : data.length < B1_LENGTH
      · rw [if_pos hl]
      · rw [if_neg hl, if_pos h]
  · intro data hl hh
    unfold B1Response.decode
    rw [if_neg (by omega), if_neg (by simp only [ne_eq, not_not]; simpa using hh)]
    simp

/-- C4 witness: the amended rejection and acceptance conditions at
concrete buffers. -/
theorem C4_decode_rejection_witness :
    B0Command.decode [1, 2, 3] = none ∧
    (B0Command.decode (List.replicate 20 (0xB0 : Nat))).isSome = true ∧
    BFCommand.decode (List.replicate 7 (0xB0 : Nat)) = none ∧
    (BFCommand.decode [0xBF, 1, 2, 3, 4, 5, 6]).isSome = true ∧
    B1Response.decode [0xB1, 1, 2] = none ∧
    (B1Response.decode [0xB1, 1, 2, 3]).isSome = true :=
  ⟨C4_decode_rejection.1 _ (by decide),
   C4_decode_rejection.2.1 _ (by decide) (by decide),
   C4_decode_rejection.2.2.1 _ (by decide),
   C4_decode_rejection.2.2.2.1 _ (by decide) (by decide),
   C4_decode_rejection.2.2.2.2.1 _ (by decide),
   C4_decode_rejection.2.2.2.2.2 _ (by decide) (by decide)⟩

/-! ## Frequency compression lemmas -/

set_option maxHeartbeats 1000000 in
set_option maxRecDepth 10000 in
lemma compress_step : ∀ x < 1000, 10 ≤ x →
    compress_frequency x ≤ compress_frequency (x + 1) := by decide

lemma compress_mono_aux (x y : Nat) (h1 : 10 ≤ x) (hxy : x ≤ y)
    (h2 : y ≤ 1000) : compress_frequency x ≤ compress_frequency y := by
  induction y, hxy using Nat.le_induction with
  | base => exact le_refl _
  | succ n hn ih =>
      exact le_trans (ih (by omega)) (compress_step n (by omega) (by omega))

set_option maxRecDepth 2000 in
lemma compress_roundtrip_low : ∀ x < 101, 10 ≤ x →
    decompress_frequency (compress_frequency x) = x := by decide

/-- C5: `compress_frequency` is the identity on 10..=100, the stated
linear rescales on 101..=600 and 601..=1000, and 10 everywhere else; it
is non-decreasing on [10,1000]; and `decompress_frequency` inverts it
exactly on [10,100]. -/
theorem C5_compress_frequency_spec :
    (∀ x : Nat, 10 ≤ x → x ≤ 100 → compress_frequency x = x) ∧
    (∀ x : Nat, 101 ≤ x → x ≤ 600 →
        compress_frequency x = (x - 100) / 5 + 100) ∧
    (∀ x : Nat, 601 ≤ x → x ≤ 1000 →
        compress_frequency x = (x - 600) / 10 + 200) ∧
    (∀ x : Nat, x < 10 ∨ 1000 < x → compress_frequency x = 10) ∧
    (∀ x y : Nat, 10 ≤ x → x ≤ y → y ≤ 1000 →
        compress_frequency x ≤ compress_frequency y) ∧
    (∀ x : Nat, 10 ≤ x → x ≤ 100 →
        decompress_frequency (compress_frequency x) = x) := by
  refine ⟨?_, ?_, ?_, ?_, compress_mono_aux, ?_⟩
  · intro x h1 h2
    unfold compress_frequency
    rw [if_pos ⟨h1, h2⟩]
    omega
  · intro x h1 h2
    unfold compress_frequency
    rw [if_neg (by omega), if_pos ⟨h1, h2⟩]
    have : (x - 100) / 5 ≤ 100 := by omega
    omega
  · intro x h1 h2
    unfold compress_frequency
    rw [if_neg (by omega), if_neg (by omega), if_pos ⟨h1, h2⟩]
    have : (x - 600) / 10 ≤ 40 := by omega
    omega
  · intro x h
    unfold compress_frequency
    rw [if_neg (by omega), if_neg (by omega), if_neg (by omega)]
  · intro x h1 h2
    exact compress_roundtrip_low x (by omega) h1

/-- C5 witness: the spec at concrete points, including the doc-test
values `compress(200) = 120`, `compress(800) = 220`. -/
theorem C5_compress_frequency_witness :
    compress_frequency 50 = 50 ∧
    compress_frequency 200 = 120 ∧
    compress_frequency 800 = 220 ∧
    compress_frequency 1500 = 10 ∧
    compress_frequency 10 ≤ compress_frequency 1000 ∧
    decompress_frequency (compress_frequency 77) = 77 :=
  ⟨C5_compress_frequency_spec.1 50 (by decide) (by decide),
   by
    have h := C5_compress_frequency_spec.2.1 200 (by decide) (by decide)
    simpa using h,
   by
    have h := C5_compress_frequency_spec.2.2.1 800 (by decide) (by decide)
    simpa using h,
   C5_compress_frequency_spec.2.2.2.1 1500 (by decide),
   C5_compress_frequency_spec.2.2.2.2.1 10 1000 (by decide) (by decide)
     (by decide),
   C5_compress_frequency_spec.2.2.2.2.2 77 (by decide) (by decide)⟩

/-- C10: `B0Command::encode` is total on arbitrary field values; the two
wire strength bytes never exceed 200 — an out-of-range strength is
replaced by the byte 0, not clamped — and the high nibble of byte 1 is
the sequence reduced to its low 4 bits. -/
theorem C10_encode_bounds :
    ∀ c : B0Command,
      c.encode.length = B0_LENGTH ∧
      c.encode.getD 2 0 ≤ MAX_STRENGTH ∧
      c.encode.getD 3 0 ≤ MAX_STRENGTH ∧
      (MAX_STRENGTH < c.strength_a → c.encode.getD 2 0 = 0) ∧
      (MAX_STRENGTH < c.strength_b → c.encode.getD 3 0 = 0) ∧
      c.encode.getD 1 0 >>> 4 = c.sequence % 16 := by
  intro c
  obtain ⟨s, m, sa, sb, ⟨a0, a1, a2, a3, a4, a5, a6, a7⟩,
          ⟨c0, c1, c2, c3, c4, c5, c6, c7⟩⟩ := c
  simp only [B0Command.encode, WaveformData.encode, List.cons_append,
    List.nil_append, List.length_cons, List.length_nil, List.getD,
    List.get?, B0_LENGTH, MAX_STRENGTH]
  norm_num
  refine ⟨by split <;> omega, by split <;> omega, by intro h1 h2; omega,
          by intro h1 h2; omega, ?_⟩
  rw [and15_of_le m.encode (StrengthMode.encode_le m), and15_eq_mod s]
  have hm := StrengthMode.encode_le m
  exact nibble_shr (s % 16) (by omega) m.encode (by omega)

/-- C10 witness: an out-of-range strength 250 is encoded as byte 0 and a
sequence of 20 is truncated to nibble 4. -/
theorem C10_encode_bounds_witness :
    (B0Command.encode ⟨20, ⟨.NoChange, .NoChange⟩, 250, 0,
        WaveformData.silent, WaveformData.silent⟩).getD 2 0 = 0 ∧
    (B0Command.encode ⟨20, ⟨.NoChange, .NoChange⟩, 250, 0,
        WaveformData.silent, WaveformData.silent⟩).getD 1 0 >>> 4 = 4 :=
  ⟨(C10_encode_bounds _).2.2.2.1 (by decide),
   (C10_encode_bounds _).2.2.2.2.2⟩

/-! ## Output-loop sequence lemmas -/

lemma build_b0_fst (st : V3OutputState) :
    (st.build_b0).1.strength_a = st.target_strength_a ∧
    (st.build_b0).1.strength_b = st.target_strength_b ∧
    (st.build_b0).1.strength_mode.channel_a =
      (if st.pending_strength_a then .Absolute else .NoChange) ∧
    (st.build_b0).1.strength_mode.channel_b =
      (if st.pending_strength_b then .Absolute else .NoChange) ∧
    (st.build_b0).2.pending_strength_a = false ∧
    (st.build_b0).2.pending_strength_b = false := by
  obtain ⟨ta, tb, pa, pb, sq, wa, wb⟩ := st
  cases pa <;> cases pb <;>
    simp [V3OutputState.build_b0, V3OutputState.next_sequence,
      StrengthMode.new]

lemma runLoaded_sequence (n : Nat) :
    (V3OutputState.runLoaded V3OutputState.new n).sequence = n % 256 := by
  induction n with
  | zero => rfl
  | succ n ih =>
      show (V3OutputState.tickLoaded _).2.sequence = _
      simp [V3OutputState.tickLoaded, V3OutputState.build_b0,
        V3OutputState.next_sequence, ih, Nat.add_mod_left]
      try omega

lemma emitSeqAt_formula (n : Nat) :
    V3OutputState.emitSeqAt V3OutputState.new n = n % 256 % 15 + 1 := by
  unfold V3OutputState.emitSeqAt
  simp only [V3OutputState.tickLoaded, V3OutputState.build_b0,
    V3OutputState.next_sequence, Bool.true_or, if_true]
  simp [runLoaded_sequence n]

/-- C2 counterexample: under continuous load from the fresh output
state, ticks 255 and 256 are consecutive yet both emit sequence 1 — the
`AtomicU8` counter wraps after 256 allocations and `255 % 15 = 0 % 15`,
so consecutive emitted sequence values do repeat. -/
theorem C2_counterexample :
    V3OutputState.emitSeqAt V3OutputState.new 255 =
      V3OutputState.emitSeqAt V3OutputState.new 256 ∧
    V3OutputState.emitSeqAt V3OutputState.new 255 = 1 := by
  rw [emitSeqAt_formula, emitSeqAt_formula]
  omega

/-- C2 as amended: a tick emits sequence 0 exactly when neither pending
flag was set at tick start; whenever a flag was set the emitted sequence
lies in 1..=15; under continuous load the emitted value at tick `n` is
`n % 256 % 15 + 1`; and two consecutive emitted values differ exactly
when the wrapping 8-bit counter is not at its wrap point (`n % 256 =
255`), so repeats occur only once every 256 ticks. -/
theorem C2_sequence_invariants :
    (∀ st : V3OutputState,
        ((st.build_b0).1.sequence = 0 ↔
          st.pending_strength_a = false ∧ st.pending_strength_b = false)) ∧
    (∀ st : V3OutputState,
        st.pending_strength_a = true ∨ st.pending_strength_b = true →
        1 ≤ (st.build_b0).1.sequence ∧ (st.build_b0).1.sequence ≤ 15) ∧
    (∀ n : Nat,
        V3OutputState.emitSeqAt V3OutputState.new n = n % 256 % 15 + 1) ∧
    (∀ n : Nat,
        V3OutputState.emitSeqAt V3OutputState.new n =
            V3OutputState.emitSeqAt V3OutputState.new (n + 1) ↔
          n % 256 = 255) := by
  refine ⟨?_, ?_, emitSeqAt_formula, ?_⟩
  · intro st
    obtain ⟨ta, tb, pa, pb, sq, wa, wb⟩ := st
    cases pa <;> cases pb <;>
      simp [V3OutputState.build_b0, V3OutputState.next_sequence]
  · intro st h
    obtain ⟨ta, tb, pa, pb, sq, wa, wb⟩ := st
    rcases h with h | h <;> subst h <;>
      simp [V3OutputState.build_b0, V3OutputState.next_sequence] <;>
      omega
  · intro n
    rw [emitSeqAt_formula, emitSeqAt_formula]
    omega

/-- C2 witness: the amended invariants at tick 0 and at a loaded state. -/
theorem C2_sequence_invariants_witness :
    ((V3OutputState.new.build_b0).1.sequence = 0 ↔
      V3OutputState.new.pending_strength_a = false ∧
      V3OutputState.new.pending_strength_b = false) ∧
    (1 ≤ (({ V3OutputState.new with pending_strength_a := true} :
            V3OutputState).build_b0).1.sequence ∧
      (({ V3OutputState.new with pending_strength_a := true} :
            V3OutputState).build_b0).1.sequence ≤ 15) ∧
    V3OutputState.emitSeqAt V3OutputState.new 3 = 4 ∧
    (V3OutputState.emitSeqAt V3OutputState.new 3 =
        V3OutputState.emitSeqAt V3OutputState.new 4 ↔ 3 % 256 = 255) :=
  ⟨C2_sequence_invariants.1 _,
   C2_sequence_invariants.2.1 _ (Or.inl rfl),
   C2_sequence_invariants.2.2.1 3,
   C2_sequence_invariants.2.2.2 3⟩

/-! ## set_power and coalescing lemmas -/

lemma set_power_state_a (d : CoyoteDevice) (v : Nat) (hv : v ≤ MAX_STRENGTH) :
    ((d.set_power 0 v).2.1).output_state =
      { d.output_state with
          target_strength_a := v, pending_strength_a := true } := by
  rcases h : d.base.set_power 0 v with e | ⟨b, evs⟩ <;>
    simp [CoyoteDevice.set_power, h, show ¬ (MAX_STRENGTH < v) from by omega]

lemma set_power_state_b (d : CoyoteDevice) (v : Nat) (hv : v ≤ MAX_STRENGTH) :
    ((d.set_power 1 v).2.1).output_state =
      { d.output_state with
          target_strength_b := v, pending_strength_b := true } := by
  rcases h : d.base.set_power 1 v with e | ⟨b, evs⟩ <;>
    simp [CoyoteDevice.set_power, h, show ¬ (MAX_STRENGTH < v) from by omega]

lemma applyPowerCalls_state_a (d : CoyoteDevice) (v : Nat) (vs : List Nat)
    (hall : ∀ u ∈ v :: vs, u ≤ MAX_STRENGTH) :
    (CoyoteDevice.applyPowerCalls d 0 (v :: vs)).output_state.target_strength_a
        = (v :: vs).getLast (by simp) ∧
    (CoyoteDevice.applyPowerCalls d 0
        (v :: vs)).output_state.pending_strength_a = true := by
  induction vs generalizing d v with
  | nil =>
      have h := set_power_state_a d v (hall v (by simp))
      simp [CoyoteDevice.applyPowerCalls, h]
  | cons w ws ih =>
      have ih' := ih ((d.set_power 0 v).2.1) w
        (fun u hu => hall u (by simp at hu ⊢; tauto))
      simp only [CoyoteDevice.applyPowerCalls, List.foldl] at ih' ⊢
      rw [List.getLast_cons (by simp)]
      exact ih'

lemma applyPowerCalls_state_b (d : CoyoteDevice) (v : Nat) (vs : List Nat)
    (hall : ∀ u ∈ v :: vs, u ≤ MAX_STRENGTH) :
    (CoyoteDevice.applyPowerCalls d 1 (v :: vs)).output_state.target_strength_b
        = (v :: vs).getLast (by simp) ∧
    (CoyoteDevice.applyPowerCalls d 1
        (v :: vs)).output_state.pending_strength_b = true := by
  induction vs generalizing d v with
  | nil =>
      have h := set_power_state_b d v (hall v (by simp))
      simp [CoyoteDevice.applyPowerCalls, h]
  | cons w ws ih =>
      have ih' := ih ((d.set_power 1 v).2.1) w
        (fun u hu => hall u (by simp at hu ⊢; tauto))
      simp only [CoyoteDevice.applyPowerCalls, List.foldl] at ih' ⊢
      rw [List.getLast_cons (by simp)]
      exact ih'

/-- C6: after any nonempty burst of in-range `set_power` calls on one
channel between two ticks, the single command built by the next tick
carries exactly the last written value with that channel interpreted as
`Absolute`, and the tick clears the channel's pending flag.  The model
produces exactly one command per tick, so no intermediate value is ever
transmitted. -/
theorem C6_coalescing (d : CoyoteDevice) (vs : List Nat) (h : vs ≠ [])
    (hall : ∀ v ∈ vs, v ≤ MAX_STRENGTH) :
    (((CoyoteDevice.applyPowerCalls d 0 vs).output_state.build_b0).1.strength_a
        = vs.getLast h ∧
     ((CoyoteDevice.applyPowerCalls d 0
        vs).output_state.build_b0).1.strength_mode.channel_a
        = ChannelStrengthMode.Absolute ∧
     ((CoyoteDevice.applyPowerCalls d 0
        vs).output_state.build_b0).2.pending_strength_a = false) ∧
    (((CoyoteDevice.applyPowerCalls d 1 vs).output_state.build_b0).1.strength_b
        = vs.getLast h ∧
     ((CoyoteDevice.applyPowerCalls d 1
        vs).output_state.build_b0).1.strength_mode.channel_b
        = ChannelStrengthMode.Absolute ∧
     ((CoyoteDevice.applyPowerCalls d 1
        vs).output_state.build_b0).2.pending_strength_b = false) := by
  rcases vs with _ | ⟨v, vs⟩
  · exact absurd rfl h
  · constructor
    · obtain ⟨ht, hp⟩ := applyPowerCalls_state_a d v vs hall
      obtain ⟨f1, f2, f3, f4, f5, f6⟩ :=
        build_b0_fst (CoyoteDevice.applyPowerCalls d 0 (v :: vs)).output_state
      exact ⟨by rw [f1, ht], by rw [f3, hp]; rfl, f5⟩
    · obtain ⟨ht, hp⟩ := applyPowerCalls_state_b d v vs hall
      obtain ⟨f1, f2, f3, f4, f5, f6⟩ :=
        build_b0_fst (CoyoteDevice.applyPowerCalls d 1 (v :: vs)).output_state
      exact ⟨by rw [f2, ht], by rw [f4, hp]; rfl, f6⟩

/-- C6 witness: a burst of three writes on each channel transmits only
the final value 30 with mode `Absolute` and leaves the flag cleared. -/
theorem C6_coalescing_witness :
    (((CoyoteDevice.applyPowerCalls CoyoteDevice.new 0
        [10, 20, 30]).output_state.build_b0).1.strength_a = 30 ∧
     ((CoyoteDevice.applyPowerCalls CoyoteDevice.new 0
        [10, 20, 30]).output_state.build_b0).1.strength_mode.channel_a
        = ChannelStrengthMode.Absolute ∧
     ((CoyoteDevice.applyPowerCalls CoyoteDevice.new 0
        [10, 20, 30]).output_state.build_b0).2.pending_strength_a = false) ∧
    (((CoyoteDevice.applyPowerCalls CoyoteDevice.new 1
        [10, 20, 30]).output_state.build_b0).1.strength_b = 30 ∧
     ((CoyoteDevice.applyPowerCalls CoyoteDevice.new 1
        [10, 20, 30]).output_state.build_b0).1.strength_mode.channel_b
        = ChannelStrengthMode.Absolute ∧
     ((CoyoteDevice.applyPowerCalls CoyoteDevice.new 1
        [10, 20, 30]).output_state.build_b0).2.pending_strength_b = false) :=
  C6_coalescing CoyoteDevice.new [10, 20, 30] (by simp) (by decide)

/-! ## State machine and power interface claims -/

/-- C7: `start()` fails with a state error (and changes nothing) whenever
the device is not `Connected`; `stop()` on a `Running` device resets both
targets to 0 and both waveforms to silent and transitions to `Connected`;
and `set_state` to the current state emits no event, while a genuine
transition emits exactly one `StateChanged` event. -/
theorem C7_state_machine :
    (∀ d : CoyoteDevice, d.base.state ≠ .Connected →
        d.start = .error .DeviceNotConnected) ∧
    (∀ d : CoyoteDevice, d.base.state = .Running →
        (d.stop).1.output_state.target_strength_a = 0 ∧
        (d.stop).1.output_state.target_strength_b = 0 ∧
        (d.stop).1.output_state.waveform_a = WaveformData.silent ∧
        (d.stop).1.output_state.waveform_b = WaveformData.silent ∧
        (d.stop).1.base.state = .Connected) ∧
    (∀ (b : BaseDevice) (st : DeviceState), b.state = st →
        b.set_state st = (b, [])) ∧
    (∀ (b : BaseDevice) (st : DeviceState), b.state ≠ st →
        (b.set_state st).1.state = st ∧
        (b.set_state st).2 = [DeviceEvent.StateChanged st]) := by
  refine ⟨?_, ?_, ?_, ?_⟩
  · intro d h
    unfold CoyoteDevice.start
    rw [if_pos h]
  · intro d h
    unfold CoyoteDevice.stop
    rw [if_neg (by simp [h])]
    simp [BaseDevice.set_state, h]
  · intro b st h
    unfold BaseDevice.set_state
    rw [if_neg (by simp [h])]
  · intro b st h
    unfold BaseDevice.set_state
    rw [if_pos h]
    exact ⟨rfl, rfl⟩

/-- C7 witness: the three state-machine facts at concrete devices. -/
theorem C7_state_machine_witness :
    ({ CoyoteDevice.new with base := { BaseDevice.new with state := .Running } } :
        CoyoteDevice).start = .error .DeviceNotConnected ∧
    (({ CoyoteDevice.new with
          base := { BaseDevice.new with state := .Running },
          output_state := { V3OutputState.new with
                              target_strength_a := 80 } } :
        CoyoteDevice).stop).1.output_state.target_strength_a = 0 ∧
    BaseDevice.set_state { BaseDevice.new with state := .Connected }
        .Connected = ({ BaseDevice.new with state := .Connected }, []) ∧
    (BaseDevice.set_state { BaseDevice.new with state := .Connected }
        .Running).2 = [DeviceEvent.StateChanged .Running] :=
  ⟨C7_state_machine.1 _ (by decide),
   (C7_state_machine.2.1 _ rfl).1,
   C7_state_machine.2.2.1 _ _ rfl,
   (C7_state_machine.2.2.2 _ _ (by decide)).2⟩

/-- C9: on the Coyote device surface, `set_power(channel, value)` errors
exactly when the channel is neither 0 nor 1 or the value exceeds the
protocol maximum 200, and an erroring call mutates nothing; on success
`get_power` returns the value just set; `get_power` of any invalid
channel is 0. -/
theorem C9_power_interface :
    (∀ (d : CoyoteDevice) (ch v : Nat),
        (d.set_power ch v).1 ≠ none ↔
          (ch ≠ 0 ∧ ch ≠ 1) ∨ MAX_STRENGTH < v) ∧
    (∀ (d : CoyoteDevice) (ch v : Nat),
        (d.set_power ch v).1 ≠ none → (d.set_power ch v).2.1 = d) ∧
    (∀ (d : CoyoteDevice) (v : Nat), v ≤ MAX_STRENGTH →
        ((d.set_power 0 v).2.1).get_power 0 = v ∧
        ((d.set_power 1 v).2.1).get_power 1 = v) ∧
    (∀ (d : CoyoteDevice) (ch : Nat), ch ≠ 0 → ch ≠ 1 →
        d.get_power ch = 0) := by
  refine ⟨?_, ?_, ?_, ?_⟩
  · intro d ch v
    by_cases hv : MAX_STRENGTH < v
    · simp [CoyoteDevice.set_power, hv]
    · rcases ch with _ | _ | ch
      · rcases h : d.base.set_power 0 v with e | ⟨b, evs⟩ <;>
          simp [CoyoteDevice.set_power, hv, h]
      · rcases h : d.base.set_power 1 v with e | ⟨b, evs⟩ <;>
          simp [CoyoteDevice.set_power, hv, h]
      · simp [CoyoteDevice.set_power, hv]
  · intro d ch v herr
    by_cases hv : MAX_STRENGTH < v
    · simp [CoyoteDevice.set_power, hv]
    · rcases ch with _ | _ | ch
      · rcases h : d.base.set_power 0 v with e | ⟨b, evs⟩ <;>
          simp [CoyoteDevice.set_power, hv, h] at herr
      · rcases h : d.base.set_power 1 v with e | ⟨b, evs⟩ <;>
          simp [CoyoteDevice.set_power, hv, h] at herr
      · simp [CoyoteDevice.set_power, hv]
  · intro d v hv
    constructor
    · have h := set_power_state_a d v hv
      show ((d.set_power 0 v).2.1).output_state.target_strength_a = v
      rw [h]
    · have h := set_power_state_b d v hv
      show ((d.set_power 1 v).2.1).output_state.target_strength_b = v
      rw [h]
  · intro d ch h0 h1
    rcases ch with _ | _ | ch
    · exact absurd rfl h0
    · exact absurd rfl h1
    · rfl

/-- C9 witness: the interface contract at concrete calls — channel 5 and
value 201 error without mutation, a valid write is read back, and
`get_power 7` is 0. -/
theorem C9_power_interface_witness :
    ((CoyoteDevice.new.set_power 5 10).1 ≠ none ↔
      (5 ≠ 0 ∧ 5 ≠ 1) ∨ MAX_STRENGTH < 10) ∧
    (CoyoteDevice.new.set_power 0 201).2.1 = CoyoteDevice.new ∧
    ((CoyoteDevice.new.set_power 0 55).2.1).get_power 0 = 55 ∧
    CoyoteDevice.new.get_power 7 = 0 :=
  ⟨C9_power_interface.1 CoyoteDevice.new 5 10,
   C9_power_interface.2.1 CoyoteDevice.new 0 201 (by decide),
   (C9_power_interface.2.2.1 CoyoteDevice.new 55 (by decide)).1,
   C9_power_interface.2.2.2 CoyoteDevice.new 7 (by decide) (by decide)⟩

/-! ## Relay wait_for_bind claims -/

/-- C3 counterexample: the three failure causes — an explicit relay
error message, a relay-issued bind-timeout notice, and closure of the
connection — all make `wait_for_bind` return the very same value
`Ok(false)`, so a caller cannot tell them apart. -/
theorem C3_counterexample :
    wait_for_bind [.ok (some (.ErrorMsg .ServerError))] =
        wait_for_bind [.ok (some .BindTimeout)] ∧
    wait_for_bind [.ok (some .BindTimeout)] =
        wait_for_bind [.ok (some .Closed)] ∧
    wait_for_bind [.ok (some .Closed)] = .ok false := by
  exact ⟨rfl, rfl, rfl⟩

/-- C3 as amended: `wait_for_bind` conflates its failure causes — an
explicit relay error event, a relay bind-timeout notice, a `Closed`
event, closure of the event channel, and expiry of the caller timeout
all return the identical value `Ok(false)`.  Only success (`Ok(true)`
on a `Bound` event) and a receive error (`Err`) are distinguishable
outcomes. -/
theorem C3_wait_for_bind_outcomes :
    (∀ (code : ErrorCode) (rest : List (Except WsErr (Option WsEvent))),
        wait_for_bind (.ok (some (.ErrorMsg code)) :: rest) = .ok false) ∧
    (∀ rest, wait_for_bind (.ok (some .BindTimeout) :: rest) = .ok false) ∧
    (∀ rest, wait_for_bind (.ok (some .Closed) :: rest) = .ok false) ∧
    (∀ rest, wait_for_bind (.ok none :: rest) = .ok false) ∧
    wait_for_bind [] = .ok false ∧
    (∀ (t : String) (rest : List (Except WsErr (Option WsEvent))),
        wait_for_bind (.ok (some (.Bound t)) :: rest) = .ok true) ∧
    (∀ (e : WsErr) (rest : List (Except WsErr (Option WsEvent))),
        wait_for_bind (.error e :: rest) = .error e) :=
  ⟨fun _ _ => rfl, fun _ => rfl, fun _ => rfl, fun _ => rfl, rfl,
   fun _ _ => rfl, fun _ _ => rfl⟩

/-! ## Bridge classification claims -/

/-- C8: the payload `strength-1+1+5` classifies as a strength operation
on channel A (0) with mode increase (1) and magnitude 5 and is applied
as the current power saturating-plus 5 capped at 200 with the pending
flag set; `clear-2` classifies as a clear of channel B (1) and zeroes
it; any payload left unclassified changes nothing.  The classifier is a
total function, so no payload can make it panic. -/
theorem C8_relay_classification :
    (classifyControl "strength-1+1+5".data = .strengthOp 0 1 5) ∧
    (∀ d : CoyoteDevice,
        (handle_control_message
            "strength-1+1+5".data d).output_state.target_strength_a =
          min (CoyoteDevice.satAdd8 (d.get_power 0) 5) 200 ∧
        (handle_control_message
            "strength-1+1+5".data d).output_state.pending_strength_a =
          true) ∧
    (classifyControl "clear-2".data = .clearOp 1) ∧
    (∀ d : CoyoteDevice,
        (handle_control_message
            "clear-2".data d).output_state.target_strength_b = 0 ∧
        (handle_control_message
            "clear-2".data d).output_state.pending_strength_b = true) ∧
    (∀ (msg : List Char) (d : CoyoteDevice),
        classifyControl msg = .unclassified →
        handle_control_message msg d = d) := by
  have hs : classifyControl "strength-1+1+5".data = .strengthOp 0 1 5 := by
    decide
  have hc : classifyControl "clear-2".data = .clearOp 1 := by decide
  refine ⟨hs, ?_, hc, ?_, ?_⟩
  · intro d
    have hnp : min (CoyoteDevice.satAdd8 (d.get_power 0) 5) 200 ≤
        MAX_STRENGTH := by
      simp [MAX_STRENGTH]
    unfold handle_control_message
    rw [hs]
    show ((d.set_power 0 _).2.1).output_state.target_strength_a = _ ∧
      ((d.set_power 0 _).2.1).output_state.pending_strength_a = true
    rw [set_power_state_a d _ hnp]
    exact ⟨rfl, rfl⟩
  · intro d
    unfold handle_control_message
    rw [hc]
    show ((d.set_power 1 0).2.1).output_state.target_strength_b = 0 ∧
      ((d.set_power 1 0).2.1).output_state.pending_strength_b = true
    rw [set_power_state_b d 0 (by simp [MAX_STRENGTH])]
    exact ⟨rfl, rfl⟩
  · intro msg d h
    unfold handle_control_message
    rw [h]
    rfl

/-- C8 witness: the classification contract applied at a concrete
device holding power 198 on channel A — the increase saturates at the
200 cap — and at the unrecognized payload `hello`. -/
theorem C8_relay_classification_witness :
    (handle_control_message "strength-1+1+5".data
        { CoyoteDevice.new with
            output_state := { V3OutputState.new with
                                target_strength_a :=
                                  198 } }).output_state.target_strength_a =
      min (CoyoteDevice.satAdd8 198 5) 200 ∧
    (handle_control_message "clear-2".data
        CoyoteDevice.new).output_state.target_strength_b = 0 ∧
    handle_control_message "hello".data CoyoteDevice.new =
      CoyoteDevice.new :=
  ⟨(C8_relay_classification.2.1 _).1,
   (C8_relay_classification.2.2.2.1 _).1,
   C8_relay_classification.2.2.2.2 _ _ (by decide)⟩

end DGLab
